import Mathlib

/-!
Shallow embedding of `pkg/apps/metrics/prometheus/metrics.go` from the
OpenShift origin repository: a Prometheus collector that scans a list of
rollout resources (replication controllers backing deployment configs),
accumulates per-phase counters, tracks a latest-failure index, and emits
metric samples.

Machine integers (`int64` Unix timestamps and observed generations) are
modelled as `Int`; the magnitudes involved never overflow in the claims.
The `float64` counter and sample values hold small integers obtained by
`++` increments or `int64` casts, all exactly representable, so values are
modelled as `Int`/`Nat`.
-/

namespace AppsMetrics

/-- Modelled from the spec: the termination classification of a rollout
resource, "one of: none, cancelled, failed, complete".  The functions
`util.IsTerminatedDeployment`, `util.IsDeploymentCancelled`,
`util.IsFailedDeployment` and `util.IsCompleteDeployment` from
`pkg/apps/util` are not part of the provided sources; the spec presents
their joint output as this four-valued enumeration. -/
inductive TerminationClass where
  | none
  | cancelled
  | failed
  | complete
deriving DecidableEq, Repr

/-- A rollout resource as consumed by the collector.  `dcName` is the
externally derived workload (deployment config) name, `ns` the Kubernetes
namespace (`namespace` is a Lean keyword), `creationTimestamp` the Unix
seconds of `d.CreationTimestamp`, `observedGeneration` the value of
`d.Status.ObservedGeneration`, `phase` the free-text status string
returned by `util.DeploymentStatusFor`. -/
structure RolloutResource where
  dcName : String
  ns : String
  creationTimestamp : Int
  observedGeneration : Int
  classification : TerminationClass
  phase : String
deriving DecidableEq, Repr

/-- Modelled from the spec: `util.DeploymentConfigNameFor` extracts the
logical workload name (may be empty, meaning "not attributable"). -/
def DeploymentConfigNameFor (d : RolloutResource) : String := d.dcName

/-- Modelled from the spec: `util.IsTerminatedDeployment` — true when the
termination classification is not "none". -/
def IsTerminatedDeployment (d : RolloutResource) : Bool :=
  d.classification != TerminationClass.none

/-- Modelled from the spec: `util.IsDeploymentCancelled`. -/
def IsDeploymentCancelled (d : RolloutResource) : Bool :=
  d.classification == TerminationClass.cancelled

/-- Modelled from the spec: `util.IsFailedDeployment`. -/
def IsFailedDeployment (d : RolloutResource) : Bool :=
  d.classification == TerminationClass.failed

/-- Modelled from the spec: `util.IsCompleteDeployment`. -/
def IsCompleteDeployment (d : RolloutResource) : Bool :=
  d.classification == TerminationClass.complete

/-- Modelled from the spec: `util.DeploymentStatusFor` — the free-text
phase string of a (typically non-terminated) rollout. -/
def DeploymentStatusFor (d : RolloutResource) : String := d.phase

/-- `nameToQuery` from metrics.go: prefixes a metric name with the fixed
namespace/subsystem string via `strings.Join(..., "_")`. -/
def nameToQuery (name : String) : String :=
  String.intercalate "_" ["openshift_apps_deploymentconfigs", name]

def completeRolloutCount : String := "complete_rollouts_total"

def activeRolloutDurationSeconds : String := "active_rollouts_duration_seconds"

def lastFailedRolloutTime : String := "last_failed_rollout_time"

def availablePhase : String := "available"

def failedPhase : String := "failed"

def cancelledPhase : String := "cancelled"

/-- A Prometheus descriptor as built by `prometheus.NewDesc`: fully
qualified name, help string, and variable label names. -/
structure Desc where
  fqName : String
  help : String
  variableLabels : List String
deriving DecidableEq, Repr

def completeRolloutCountDesc : Desc :=
  ⟨nameToQuery completeRolloutCount, "Counts total complete rollouts", ["phase"]⟩

def lastFailedRolloutTimeDesc : Desc :=
  ⟨nameToQuery lastFailedRolloutTime,
   "Tracks the time of last failure rollout per deployment config",
   ["namespace", "name", "generation"]⟩

def activeRolloutDurationSecondsDesc : Desc :=
  ⟨nameToQuery activeRolloutDurationSeconds,
   "Tracks the active rollout duration in seconds",
   ["namespace", "name", "phase", "generation"]⟩

/-- `appsCollector.Describe`: sends the two declared descriptors on the
channel, in order; modelled as the list of descriptors sent. -/
def Describe : List Desc :=
  [completeRolloutCountDesc, activeRolloutDurationSecondsDesc]

/-- A metric sample as built by `prometheus.MustNewConstMetric`: the
descriptor's fully qualified name, the (integral, see module comment)
value, and the label values in label-schema order. -/
structure Sample where
  descName : String
  value : Int
  labelValues : List String
deriving DecidableEq, Repr

/-- `failedRollout` from metrics.go. -/
structure failedRollout where
  timestamp : Int
  generation : Int
deriving DecidableEq, Repr

/-- The Go map `map[string]failedRollout`, modelled as an association
list with at most one entry per key.  Go map iteration order is
unspecified; the claims proved below never depend on it (the index is in
fact provably empty at emission time). -/
def lookupRollout : List (String × failedRollout) → String → Option failedRollout
  | [], _ => Option.none
  | (k, r) :: rest, key => if k = key then some r else lookupRollout rest key

/-- Go map assignment `m[key] = r`: replaces the entry when the key is
present, otherwise appends a fresh entry. -/
def insertRollout : List (String × failedRollout) → String → failedRollout →
    List (String × failedRollout)
  | [], key, r => [(key, r)]
  | (k, r0) :: rest, key, r =>
    if k = key then (key, r) :: rest else (k, r0) :: insertRollout rest key r

/-- The per-scrape mutable state of `appsCollector.Collect`: the three
phase counters, the latest-failure index, and the duration samples sent
on the channel so far (in emission order). -/
structure ScanState where
  available : Nat
  failed : Nat
  cancelled : Nat
  latestFailedRollouts : List (String × failedRollout)
  samples : List Sample
deriving DecidableEq, Repr

def initState : ScanState := ⟨0, 0, 0, [], []⟩

/-- The latest-failure index key `d.Namespace+"/"+dcName`. -/
def rolloutKey (d : RolloutResource) : String :=
  d.ns ++ "/" ++ DeploymentConfigNameFor d

/-- The `IsFailedDeployment` branch of the loop body: increments the
failed counter, then updates (never inserts) the latest-failure record
for `namespace/dcName` when an entry already exists with a strictly
smaller generation.  The Go code computes a `shouldUpdate` flag that
starts `false`, is set only when the key `exists` in the map with
`d.Status.ObservedGeneration > r.generation`, and guards the map write;
the match below is that exact control flow. -/
def failedStep (s : ScanState) (d : RolloutResource) : ScanState :=
  let s := { s with failed := s.failed + 1 }
  let key := rolloutKey d
  match lookupRollout s.latestFailedRollouts key with
  | some r =>
    if d.observedGeneration > r.generation then
      { s with latestFailedRollouts :=
          (insertRollout s.latestFailedRollouts key
            ⟨d.creationTimestamp, d.observedGeneration⟩) }
    else s
  | Option.none => s

/-- The tail of the loop body (reached by falling through all terminated
branches): normalizes the phase, computes the duration in whole seconds,
and emits one `active_rollouts_duration_seconds` sample.  `now` models
`time.Now().Unix()` (held fixed across the scrape). -/
def activeStep (now : Int) (s : ScanState) (d : RolloutResource) : ScanState :=
  let phase0 := (DeploymentStatusFor d).toLower
  let phase := if phase0.length = 0 then "unknown" else phase0
  let durationSeconds := now - d.creationTimestamp
  { s with samples := s.samples ++
      [⟨nameToQuery activeRolloutDurationSeconds, durationSeconds,
        [d.ns, DeploymentConfigNameFor d, phase,
         toString d.observedGeneration]⟩] }

/-- One iteration of the `for _, d := range result` loop in
`appsCollector.Collect`.  The nested `if` structure mirrors the Go code:
a terminated resource matching none of the cancelled/failed/complete
predicates falls through to the active branch. -/
def collectOne (now : Int) (s : ScanState) (d : RolloutResource) : ScanState :=
  let dcName := DeploymentConfigNameFor d
  if dcName.length = 0 then s
  else if IsTerminatedDeployment d then
    if IsDeploymentCancelled d then { s with cancelled := s.cancelled + 1 }
    else if IsFailedDeployment d then failedStep s d
    else if IsCompleteDeployment d then { s with available := s.available + 1 }
    else activeStep now s d
  else activeStep now s d

/-- The whole per-resource pass of `Collect`, starting from fresh
counters, an empty index, and no emitted samples. -/
def scan (now : Int) (resources : List RolloutResource) : ScanState :=
  resources.foldl (collectOne now) initState

/-- The sample emitted for one surviving latest-failure index entry:
`strings.Split` of the key on "/", namespace and name label from the
first two parts, generation rendered in decimal. -/
def lastFailedSample (entry : String × failedRollout) : Sample :=
  let parts := entry.1.splitOn "/"
  ⟨nameToQuery lastFailedRolloutTime, entry.2.timestamp,
   [parts.getD 0 "", parts.getD 1 "", toString entry.2.generation]⟩

/-- `appsCollector.Collect`, modelled as the list of samples sent on the
channel.  The lister result is an `Except`: on fetch error the scrape
logs and returns with no samples.  On success: duration samples in list
order, then one sample per latest-failure entry, then the three
`complete_rollouts_total` samples. -/
def Collect (now : Int) (result : Except String (List RolloutResource)) :
    List Sample :=
  match result with
  | .error _ => []
  | .ok resources =>
    let s := scan now resources
    s.samples
      ++ s.latestFailedRollouts.map lastFailedSample
      ++ [⟨nameToQuery completeRolloutCount, (s.available : Int), [availablePhase]⟩,
          ⟨nameToQuery completeRolloutCount, (s.failed : Int), [failedPhase]⟩,
          ⟨nameToQuery completeRolloutCount, (s.cancelled : Int), [cancelledPhase]⟩]

/-- The phase normalization as worded by the spec: the empty phase string
is replaced by "unknown", otherwise the phase is lowercased.  Compared
below against the code's order of operations (lowercase first, then test
emptiness). -/
def specNormalizePhase (p : String) : String :=
  if p = "" then "unknown" else p.toLower

/-- The single `active_rollouts_duration_seconds` sample the active
branch emits for a resource, with the spec-side phase normalization. -/
def activeSample (now : Int) (d : RolloutResource) : Sample :=
  ⟨nameToQuery activeRolloutDurationSeconds, now - d.creationTimestamp,
   [d.ns, d.dcName, specNormalizePhase d.phase, toString d.observedGeneration]⟩

theorem toLower_data (p : String) : p.toLower = ⟨p.data.map Char.toLower⟩ := by
  rw [String.toLower, String.map_eq]

theorem toLower_length (p : String) : p.toLower.length = p.length := by
  rw [toLower_data]
  show (p.data.map Char.toLower).length = p.data.length
  simp

/-- The code lowercases the phase and then tests emptiness; the spec
tests emptiness of the raw phase and then lowercases.  The two agree. -/
theorem normalizePhase_eq (p : String) :
    (if (p.toLower).length = 0 then "unknown" else p.toLower)
      = specNormalizePhase p := by
  rw [specNormalizePhase]
  rcases eq_or_ne p "" with h | h
  · subst h
    rw [toLower_data]
    rfl
  · rw [if_neg h, if_neg]
    rw [toLower_length]
    intro hl
    apply h
    rw [String.ext_iff]
    show p.data = ([] : List Char)
    exact List.length_eq_zero.mp hl

theorem activeStep_eq (now : Int) (s : ScanState) (d : RolloutResource) :
    activeStep now s d = { s with samples := s.samples ++ [activeSample now d] } := by
  simp only [activeStep, DeploymentStatusFor, DeploymentConfigNameFor, activeSample,
    normalizePhase_eq]

theorem lookupRollout_insertRollout (m : List (String × failedRollout))
    (k : String) (r : failedRollout) :
    lookupRollout (insertRollout m k r) k = some r := by
  induction m with
  | nil => simp [insertRollout, lookupRollout]
  | cons hd tl ih =>
    obtain ⟨k0, r0⟩ := hd
    rw [insertRollout]
    rcases eq_or_ne k0 k with h | h
    · rw [if_pos h, lookupRollout, if_pos rfl]
    · rw [if_neg h, lookupRollout, if_neg h, ih]

theorem failedStep_of_absent (s : ScanState) (d : RolloutResource)
    (h : lookupRollout s.latestFailedRollouts (rolloutKey d) = Option.none) :
    failedStep s d = { s with failed := s.failed + 1 } := by
  simp only [failedStep]
  rw [h]

theorem failedStep_failed (s : ScanState) (d : RolloutResource) :
    (failedStep s d).failed = s.failed + 1 := by
  simp only [failedStep]
  split
  · split <;> rfl
  · rfl

theorem failedStep_available (s : ScanState) (d : RolloutResource) :
    (failedStep s d).available = s.available := by
  simp only [failedStep]
  split
  · split <;> rfl
  · rfl

theorem failedStep_cancelled (s : ScanState) (d : RolloutResource) :
    (failedStep s d).cancelled = s.cancelled := by
  simp only [failedStep]
  split
  · split <;> rfl
  · rfl

theorem failedStep_samples (s : ScanState) (d : RolloutResource) :
    (failedStep s d).samples = s.samples := by
  simp only [failedStep]
  split
  · split <;> rfl
  · rfl

theorem collectOne_empty_name (now : Int) (s : ScanState) (d : RolloutResource)
    (h : d.dcName.length = 0) : collectOne now s d = s := by
  simp [collectOne, DeploymentConfigNameFor, h]

theorem collectOne_cancelled (now : Int) (s : ScanState) (d : RolloutResource)
    (hn : d.dcName.length ≠ 0) (hc : d.classification = TerminationClass.cancelled) :
    collectOne now s d = { s with cancelled := s.cancelled + 1 } := by
  simp [collectOne, DeploymentConfigNameFor, IsTerminatedDeployment,
    IsDeploymentCancelled, hn, hc]

theorem collectOne_failed (now : Int) (s : ScanState) (d : RolloutResource)
    (hn : d.dcName.length ≠ 0) (hc : d.classification = TerminationClass.failed) :
    collectOne now s d = failedStep s d := by
  simp [collectOne, DeploymentConfigNameFor, IsTerminatedDeployment,
    IsDeploymentCancelled, IsFailedDeployment, hn, hc]

theorem collectOne_complete (now : Int) (s : ScanState) (d : RolloutResource)
    (hn : d.dcName.length ≠ 0) (hc : d.classification = TerminationClass.complete) :
    collectOne now s d = { s with available := s.available + 1 } := by
  simp [collectOne, DeploymentConfigNameFor, IsTerminatedDeployment,
    IsDeploymentCancelled, IsFailedDeployment, IsCompleteDeployment, hn, hc]

theorem collectOne_active (now : Int) (s : ScanState) (d : RolloutResource)
    (hn : d.dcName.length ≠ 0) (hc : d.classification = TerminationClass.none) :
    collectOne now s d = activeStep now s d := by
  simp [collectOne, DeploymentConfigNameFor, IsTerminatedDeployment, hn, hc]

theorem collectOne_samples (now : Int) (s : ScanState) (d : RolloutResource) :
    (collectOne now s d).samples = s.samples ++
      (if d.dcName.length ≠ 0 ∧ d.classification = TerminationClass.none
       then [activeSample now d] else []) := by
  by_cases hn : d.dcName.length = 0
  · rw [collectOne_empty_name now s d hn]
    simp [hn]
  · cases hc : d.classification with
    | none =>
      rw [collectOne_active now s d hn hc, activeStep_eq]
      simp [hn, hc]
    | cancelled =>
      rw [collectOne_cancelled now s d hn hc]
      simp [hc]
    | failed =>
      rw [collectOne_failed now s d hn hc, failedStep_samples]
      simp [hc]
    | complete =>
      rw [collectOne_complete now s d hn hc]
      simp [hc]

theorem collectOne_available (now : Int) (s : ScanState) (d : RolloutResource) :
    (collectOne now s d).available = s.available +
      (if d.dcName.length ≠ 0 ∧ d.classification = TerminationClass.complete
       then 1 else 0) := by
  by_cases hn : d.dcName.length = 0
  · rw [collectOne_empty_name now s d hn]
    simp [hn]
  · cases hc : d.classification with
    | none =>
      rw [collectOne_active now s d hn hc, activeStep_eq]
      simp [hc]
    | cancelled =>
      rw [collectOne_cancelled now s d hn hc]
      simp [hc]
    | failed =>
      rw [collectOne_failed now s d hn hc, failedStep_available]
      simp [hc]
    | complete =>
      rw [collectOne_complete now s d hn hc]
      simp [hn, hc]

theorem collectOne_failed_count (now : Int) (s : ScanState) (d : RolloutResource) :
    (collectOne now s d).failed = s.failed +
      (if d.dcName.length ≠ 0 ∧ d.classification = TerminationClass.failed
       then 1 else 0) := by
  by_cases hn : d.dcName.length = 0
  · rw [collectOne_empty_name now s d hn]
    simp [hn]
  · cases hc : d.classification with
    | none =>
      rw [collectOne_active now s d hn hc, activeStep_eq]
      simp [hc]
    | cancelled =>
      rw [collectOne_cancelled now s d hn hc]
      simp [hc]
    | failed =>
      rw [collectOne_failed now s d hn hc, failedStep_failed]
      simp [hn, hc]
    | complete =>
      rw [collectOne_complete now s d hn hc]
      simp [hc]

theorem collectOne_cancelled_count (now : Int) (s : ScanState) (d : RolloutResource) :
    (collectOne now s d).cancelled = s.cancelled +
      (if d.dcName.length ≠ 0 ∧ d.classification = TerminationClass.cancelled
       then 1 else 0) := by
  by_cases hn : d.dcName.length = 0
  · rw [collectOne_empty_name now s d hn]
    simp [hn]
  · cases hc : d.classification with
    | none =>
      rw [collectOne_active now s d hn hc, activeStep_eq]
      simp [hc]
    | cancelled =>
      rw [collectOne_cancelled now s d hn hc]
      simp [hn, hc]
    | failed =>
      rw [collectOne_failed now s d hn hc, failedStep_cancelled]
      simp [hc]
    | complete =>
      rw [collectOne_complete now s d hn hc]
      simp [hc]

theorem collectOne_latest_nil (now : Int) (s : ScanState) (d : RolloutResource)
    (h : s.latestFailedRollouts = []) :
    (collectOne now s d).latestFailedRollouts = [] := by
  by_cases hn : d.dcName.length = 0
  · rw [collectOne_empty_name now s d hn, h]
  · cases hc : d.classification with
    | none =>
      rw [collectOne_active now s d hn hc, activeStep_eq]
      exact h
    | cancelled =>
      rw [collectOne_cancelled now s d hn hc]
      exact h
    | failed =>
      rw [collectOne_failed now s d hn hc, failedStep_of_absent s d (by rw [h, lookupRollout])]
      exact h
    | complete =>
      rw [collectOne_complete now s d hn hc]
      exact h

theorem foldl_samples (now : Int) :
    ∀ (l : List RolloutResource) (s : ScanState),
    (List.foldl (collectOne now) s l).samples = s.samples ++
      (l.filter (fun d => d.dcName.length != 0 && !(IsTerminatedDeployment d))).map
        (activeSample now) := by
  intro l
  induction l with
  | nil => intro s; simp
  | cons d tl ih =>
    intro s
    rw [List.foldl_cons, ih]
    by_cases hn : d.dcName.length = 0
    · rw [collectOne_empty_name now s d hn]
      simp [List.filter_cons, hn]
    · cases hc : d.classification with
      | none =>
        rw [collectOne_active now s d hn hc, activeStep_eq]
        simp [List.filter_cons, hn, hc, IsTerminatedDeployment]
      | cancelled =>
        rw [collectOne_cancelled now s d hn hc]
        simp [List.filter_cons, hc, IsTerminatedDeployment]
      | failed =>
        rw [collectOne_failed now s d hn hc, failedStep_samples]
        simp [List.filter_cons, hc, IsTerminatedDeployment]
      | complete =>
        rw [collectOne_complete now s d hn hc]
        simp [List.filter_cons, hc, IsTerminatedDeployment]

theorem foldl_available (now : Int) :
    ∀ (l : List RolloutResource) (s : ScanState),
    (List.foldl (collectOne now) s l).available = s.available +
      l.countP (fun d => d.dcName.length != 0 && IsCompleteDeployment d) := by
  intro l
  induction l with
  | nil => intro s; simp
  | cons d tl ih =>
    intro s
    rw [List.foldl_cons, ih]
    by_cases hn : d.dcName.length = 0
    · rw [collectOne_empty_name now s d hn]
      simp [List.countP_cons, hn]
    · cases hc : d.classification with
      | none =>
        rw [collectOne_active now s d hn hc, activeStep_eq]
        simp [List.countP_cons, hc, IsCompleteDeployment]
      | cancelled =>
        rw [collectOne_cancelled now s d hn hc]
        simp [List.countP_cons, hc, IsCompleteDeployment]
      | failed =>
        rw [collectOne_failed now s d hn hc, failedStep_available]
        simp [List.countP_cons, hc, IsCompleteDeployment]
      | complete =>
        rw [collectOne_complete now s d hn hc]
        simp only [ScanState.available]
        simp [List.countP_cons, hn, hc, IsCompleteDeployment]
        omega

theorem foldl_failed (now : Int) :
    ∀ (l : List RolloutResource) (s : ScanState),
    (List.foldl (collectOne now) s l).failed = s.failed +
      l.countP (fun d => d.dcName.length != 0 && IsFailedDeployment d) := by
  intro l
  induction l with
  | nil => intro s; simp
  | cons d tl ih =>
    intro s
    rw [List.foldl_cons, ih]
    by_cases hn : d.dcName.length = 0
    · rw [collectOne_empty_name now s d hn]
      simp [List.countP_cons, hn]
    · cases hc : d.classification with
      | none =>
        rw [collectOne_active now s d hn hc, activeStep_eq]
        simp [List.countP_cons, hc, IsFailedDeployment]
      | cancelled =>
        rw [collectOne_cancelled now s d hn hc]
        simp [List.countP_cons, hc, IsFailedDeployment]
      | failed =>
        rw [collectOne_failed now s d hn hc, failedStep_failed]
        simp [List.countP_cons, hn, hc, IsFailedDeployment]
        omega
      | complete =>
        rw [collectOne_complete now s d hn hc]
        simp [List.countP_cons, hc, IsFailedDeployment]

theorem foldl_cancelled (now : Int) :
    ∀ (l : List RolloutResource) (s : ScanState),
    (List.foldl (collectOne now) s l).cancelled = s.cancelled +
      l.countP (fun d => d.dcName.length != 0 && IsDeploymentCancelled d) := by
  intro l
  induction l with
  | nil => intro s; simp
  | cons d tl ih =>
    intro s
    rw [List.foldl_cons, ih]
    by_cases hn : d.dcName.length = 0
    · rw [collectOne_empty_name now s d hn]
      simp [List.countP_cons, hn]
    · cases hc : d.classification with
      | none =>
        rw [collectOne_active now s d hn hc, activeStep_eq]
        simp [List.countP_cons, hc, IsDeploymentCancelled]
      | cancelled =>
        rw [collectOne_cancelled now s d hn hc]
        simp [List.countP_cons, hn, hc, IsDeploymentCancelled]
        omega
      | failed =>
        rw [collectOne_failed now s d hn hc, failedStep_cancelled]
        simp [List.countP_cons, hc, IsDeploymentCancelled]
      | complete =>
        rw [collectOne_complete now s d hn hc]
        simp [List.countP_cons, hc, IsDeploymentCancelled]

theorem foldl_latest_nil (now : Int) :
    ∀ (l : List RolloutResource) (s : ScanState),
    s.latestFailedRollouts = [] →
    (List.foldl (collectOne now) s l).latestFailedRollouts = [] := by
  intro l
  induction l with
  | nil => intro s h; exact h
  | cons d tl ih =>
    intro s h
    rw [List.foldl_cons]
    exact ih _ (collectOne_latest_nil now s d h)

theorem scan_latest (now : Int) (l : List RolloutResource) :
    (scan now l).latestFailedRollouts = [] :=
  foldl_latest_nil now l initState rfl

theorem scan_samples (now : Int) (l : List RolloutResource) :
    (scan now l).samples =
      (l.filter (fun d => d.dcName.length != 0 && !(IsTerminatedDeployment d))).map
        (activeSample now) := by
  rw [scan, foldl_samples]
  simp [initState]

theorem Collect_ok (now : Int) (l : List RolloutResource) :
    Collect now (Except.ok l) =
      ((l.filter (fun d => d.dcName.length != 0 && !(IsTerminatedDeployment d))).map
          (activeSample now)) ++
      [⟨nameToQuery completeRolloutCount, ((scan now l).available : Int), [availablePhase]⟩,
       ⟨nameToQuery completeRolloutCount, ((scan now l).failed : Int), [failedPhase]⟩,
       ⟨nameToQuery completeRolloutCount, ((scan now l).cancelled : Int), [cancelledPhase]⟩] := by
  simp only [Collect]
  rw [scan_latest, scan_samples]
  simp

theorem completeName_ne_activeName :
    (nameToQuery completeRolloutCount == nameToQuery activeRolloutDurationSeconds)
      = false := by decide

theorem activeName_ne_completeName :
    (nameToQuery activeRolloutDurationSeconds == nameToQuery completeRolloutCount)
      = false := by decide

theorem activeName_ne_lastFailedName :
    (nameToQuery activeRolloutDurationSeconds == nameToQuery lastFailedRolloutTime)
      = false := by decide

theorem completeName_ne_lastFailedName :
    (nameToQuery completeRolloutCount == nameToQuery lastFailedRolloutTime)
      = false := by decide

/-- C1: a failed resource whose (namespace, workload) key has no entry in
the latest-failure index leaves the index unchanged (no entry is seeded)
and emits no sample during its loop iteration. -/
theorem C1_first_failure_no_entry (now : Int) (s : ScanState) (d : RolloutResource)
    (hn : d.dcName.length ≠ 0) (hf : d.classification = TerminationClass.failed)
    (habs : lookupRollout s.latestFailedRollouts (rolloutKey d) = Option.none) :
    (collectOne now s d).latestFailedRollouts = s.latestFailedRollouts ∧
    (collectOne now s d).samples = s.samples := by
  rw [collectOne_failed now s d hn hf, failedStep_of_absent s d habs]
  exact ⟨rfl, rfl⟩

theorem C1_first_failure_no_entry_witness :
    (collectOne 0 initState ⟨"app", "ns", 3, 1, TerminationClass.failed, ""⟩).latestFailedRollouts
        = initState.latestFailedRollouts ∧
    (collectOne 0 initState ⟨"app", "ns", 3, 1, TerminationClass.failed, ""⟩).samples
        = initState.samples :=
  C1_first_failure_no_entry 0 initState ⟨"app", "ns", 3, 1, TerminationClass.failed, ""⟩
    (by decide) rfl rfl

/-- C2: the latest-failure index is empty once the per-resource pass
completes, for every input list, so no scrape emits any
`last_failed_rollout_time` sample. -/
theorem C2_latest_failure_index_empty (now : Int) (l : List RolloutResource) :
    (scan now l).latestFailedRollouts = [] ∧
    (Collect now (Except.ok l)).filter
        (fun smp => smp.descName == nameToQuery lastFailedRolloutTime) = [] := by
  refine ⟨scan_latest now l, ?_⟩
  rw [Collect_ok, List.filter_append, List.filter_map]
  simp [Function.comp, activeSample, activeName_ne_lastFailedName,
    completeName_ne_lastFailedName]

/-- C3: one `active_rollouts_duration_seconds` sample is emitted per
non-terminated resource with non-empty workload name, and only for
those; the emitted values are, in list order, now minus the creation
timestamp in whole seconds (possibly negative under clock skew). -/
theorem C3_active_duration_samples (now : Int) (l : List RolloutResource) :
    ((Collect now (Except.ok l)).filter
        (fun smp => smp.descName == nameToQuery activeRolloutDurationSeconds)).map
        Sample.value
      = (l.filter (fun d => d.dcName.length != 0 && !(IsTerminatedDeployment d))).map
          (fun d => now - d.creationTimestamp) := by
  rw [Collect_ok, List.filter_append, List.filter_map]
  simp [Function.comp, activeSample, completeName_ne_activeName]

/-- C4: the final counter values equal the number of resources with
non-empty workload name classified complete, failed and cancelled
respectively; non-terminated and empty-name resources count in none. -/
theorem C4_counter_totals (now : Int) (l : List RolloutResource) :
    (scan now l).available =
        l.countP (fun d => d.dcName.length != 0 && IsCompleteDeployment d) ∧
    (scan now l).failed =
        l.countP (fun d => d.dcName.length != 0 && IsFailedDeployment d) ∧
    (scan now l).cancelled =
        l.countP (fun d => d.dcName.length != 0 && IsDeploymentCancelled d) := by
  refine ⟨?_, ?_, ?_⟩
  · rw [scan, foldl_available]; simp [initState]
  · rw [scan, foldl_failed]; simp [initState]
  · rw [scan, foldl_cancelled]; simp [initState]

/-- C6: processing a failed resource whose key already has an index
entry with a strictly smaller generation replaces that entry with the
new resource's timestamp and generation. -/
theorem C6_higher_generation_replaces (now : Int) (s : ScanState) (d : RolloutResource)
    (t1 g1 : Int)
    (hn : d.dcName.length ≠ 0) (hf : d.classification = TerminationClass.failed)
    (hl : lookupRollout s.latestFailedRollouts (rolloutKey d) = some ⟨t1, g1⟩)
    (hg : g1 < d.observedGeneration) :
    lookupRollout (collectOne now s d).latestFailedRollouts (rolloutKey d)
      = some ⟨d.creationTimestamp, d.observedGeneration⟩ := by
  rw [collectOne_failed now s d hn hf]
  simp only [failedStep]
  rw [hl]
  simp only [gt_iff_lt, if_pos hg]
  exact lookupRollout_insertRollout _ _ _

theorem C6_higher_generation_replaces_witness :
    lookupRollout
        (collectOne 0 ⟨0, 0, 0, [("ns/app", ⟨5, 1⟩)], []⟩
            ⟨"app", "ns", 10, 2, TerminationClass.failed, ""⟩).latestFailedRollouts
        (rolloutKey ⟨"app", "ns", 10, 2, TerminationClass.failed, ""⟩)
      = some ⟨10, 2⟩ :=
  C6_higher_generation_replaces 0 ⟨0, 0, 0, [("ns/app", ⟨5, 1⟩)], []⟩
    ⟨"app", "ns", 10, 2, TerminationClass.failed, ""⟩ 5 1
    (by decide) rfl (by decide) (by decide)

/-- C7: every successful scrape emits exactly three
`complete_rollouts_total` samples, labeled available, failed and
cancelled in that order, regardless of the counts. -/
theorem C7_three_counter_samples (now : Int) (l : List RolloutResource) :
    ((Collect now (Except.ok l)).filter
        (fun smp => smp.descName == nameToQuery completeRolloutCount)).map
        Sample.labelValues
      = [[availablePhase], [failedPhase], [cancelledPhase]] := by
  rw [Collect_ok, List.filter_append, List.filter_map]
  simp [Function.comp, activeSample, activeName_ne_completeName]

/-- C8: a resource with empty derived workload name contributes nothing
to a scrape: removing it from the input list leaves the emitted samples
unchanged, so no sample, counter or index entry stems from it. -/
theorem C8_empty_name_no_effect (now : Int) (pre post : List RolloutResource)
    (d : RolloutResource) (h : d.dcName = "") :
    Collect now (Except.ok (pre ++ d :: post))
      = Collect now (Except.ok (pre ++ post)) := by
  have hstep : collectOne now (List.foldl (collectOne now) initState pre) d
      = List.foldl (collectOne now) initState pre :=
    collectOne_empty_name now _ d (by rw [h]; rfl)
  have hscan : scan now (pre ++ d :: post) = scan now (pre ++ post) := by
    rw [scan, scan, List.foldl_append, List.foldl_append, List.foldl_cons, hstep]
  simp only [Collect]
  rw [hscan]

theorem C8_empty_name_no_effect_witness :
    Collect 0 (Except.ok [⟨"", "ns", 0, 0, TerminationClass.none, ""⟩])
      = Collect 0 (Except.ok []) :=
  C8_empty_name_no_effect 0 [] [] ⟨"", "ns", 0, 0, TerminationClass.none, ""⟩ rfl

/-- C9: the sample emitted by the active branch is labeled with the
resource's namespace, workload name, the normalized phase (lowercased,
empty replaced by "unknown"), and the observed generation rendered as a
decimal string. -/
theorem C9_active_sample_labels (now : Int) (s : ScanState) (d : RolloutResource)
    (hn : d.dcName.length ≠ 0) (hc : d.classification = TerminationClass.none) :
    (collectOne now s d).samples = s.samples ++
      [⟨nameToQuery activeRolloutDurationSeconds, now - d.creationTimestamp,
        [d.ns, d.dcName, specNormalizePhase d.phase, toString d.observedGeneration]⟩] := by
  rw [collectOne_active now s d hn hc, activeStep_eq]
  rfl

theorem C9_active_sample_labels_witness :
    (collectOne 7 initState ⟨"app", "ns", 0, 0, TerminationClass.none, ""⟩).samples
      = [⟨nameToQuery activeRolloutDurationSeconds, 7,
          ["ns", "app", "unknown", "0"]⟩] := by
  rw [C9_active_sample_labels 7 initState ⟨"app", "ns", 0, 0, TerminationClass.none, ""⟩
    (by decide) rfl]
  rfl

/-- C5: a failed fetch of the resource list yields zero emitted samples,
and `Collect` returns normally (it is a total function into sample
lists, so no failure propagates). -/
theorem C5_fetch_failure_zero_samples (now : Int) (err : String) :
    Collect now (.error err) = [] := rfl

/-- C10: `Describe` enumerates exactly two descriptors — the
`complete_rollouts_total` and `active_rollouts_duration_seconds`
descriptors — and omits the `last_failed_rollout_time` descriptor. -/
theorem C10_describe_two_descriptors :
    Describe = [completeRolloutCountDesc, activeRolloutDurationSecondsDesc] ∧
    lastFailedRolloutTimeDesc ∉ Describe := by
  refine ⟨rfl, ?_⟩
  decide

end AppsMetrics
